import Mathlib

/-!
Verification development for the graph-RAG query agent: a shallow embedding of
the retrieval query builder, query planner, map-reduce synthesizer, answer
critic, graph executor and orchestrator, together with theorems settling the
frozen claims about them.  External collaborators (LLM gateway, JSON parsing
of LLM text, the FAISS index, textwrap) are modelled as explicit function
parameters; all control flow, validation and string construction is embedded
from the Python source.
-/

/-- Single-quote character (U+0027), used where the Python builders interpolate
values wrapped in single quotes into Cypher list literals. -/
def sqc : Char := Char.ofNat 39

/-- Single-quote as a one-character string. -/
def sqt : String := String.singleton sqc

/-- Wraps a value in single quotes, mirroring the Python interpolation pattern. -/
def quoteStr (s : String) : String := sqt ++ s ++ sqt

/-- Decides whether `pat` is a prefix of `cs` (character lists). -/
def listPre : List Char → List Char → Bool
  | [], _ => true
  | _ :: _, [] => false
  | p :: ps, c :: cs => p == c && listPre ps cs

/-- Decides whether `pat` occurs as a contiguous sublist of the text. -/
def listSub (pat : List Char) : List Char → Bool
  | [] => listPre pat []
  | c :: cs => listPre pat (c :: cs) || listSub pat cs

/-- Decides whether the string `pat` occurs as a substring of `s`. -/
def strSub (pat s : String) : Bool := listSub pat.data s.data

/-- Renders an optional string the way a Python f-string renders the value
(`None` for a missing value). -/
def optStr : Option String → String
  | none => "None"
  | some s => s

/-- The structured search plan consumed by `CypherQueryBuilder.build_query`
(`plan` dict in `cypher_builder.py`; `.get` with a list default is modelled by
a list field, `.get` without a default by an `Option`). -/
structure SearchPlan where
  search_type : Option String
  concept : Option String
  companies : List String
  years : List Int
  quarters : List String
  sections : List Int
deriving DecidableEq

/-- The FAISS-backed vector store: `search` takes a query embedding and `k` and
returns (distances, section ids).  External collaborator, modelled as a
function. -/
structure VectorDB where
  search : List Float → Nat → List Float × List String

/-- Match clause of `CypherQueryBuilder._build_direct_query`. -/
def direct_match_clause : String :=
  "MATCH (c:Company)-[:HAS_YEAR]->(y:Year)-[:HAS_QUARTER]->(q:Quarter)-[:HAS_DOC]->(d:Document)-[:HAS_SECTION]->(s:Section)"

/-- Shared RETURN clause of the direct and hybrid builders. -/
def section_return_clause : String := "RETURN s.text AS text, s.filename AS filename"

/-- Embedding of `CypherQueryBuilder._build_direct_query`. -/
def build_direct_query (plan : SearchPlan) : String :=
  let where_parts : List String :=
    (if plan.companies.isEmpty then [] else
      ["c.name IN [" ++ String.intercalate ", " (plan.companies.map quoteStr) ++ "]"])
    ++ (if plan.years.isEmpty then [] else
      ["y.value IN [" ++ String.intercalate ", " (plan.years.map toString) ++ "]"])
    ++ (if plan.quarters.isEmpty then [] else
      ["q.label IN [" ++ String.intercalate ", " (plan.quarters.map quoteStr) ++ "]"])
    ++ (if plan.sections.isEmpty then [] else
      ["id(s) IN [" ++ String.intercalate ", " (plan.sections.map toString) ++ "]"])
  let where_clause : String :=
    if where_parts.isEmpty then "" else "WHERE " ++ String.intercalate " AND " where_parts
  direct_match_clause ++ " " ++ where_clause ++ " " ++ section_return_clause

/-- Embedding of `CypherQueryBuilder._build_comprehensive_query` (the Python
`strip()` on the triple-quoted template is `String.trim`). -/
def build_comprehensive_query (plan : SearchPlan) : String :=
  if plan.companies.isEmpty then ""
  else
    let companies_str := "[" ++ String.intercalate ", " (plan.companies.map quoteStr) ++ "]"
    ("\n        MATCH (c:Company)-[:HAS_YEAR]->(y:Year)-[:HAS_QUARTER]->(q:Quarter)-[:HAS_DOC]->(d:Document)-[:HAS_SECTION]->(s:Section)\n        WHERE c.name IN "
      ++ companies_str
      ++ "\n        WITH s, d, y, q\n        ORDER BY y.value DESC, q.label DESC\n        LIMIT 10\n        RETURN s.text AS text, s.filename AS filename\n        ").trim

/-- EXISTS sub-predicate on companies in the hybrid builder (the literal braces
of the Python f-string are the \x7b and \x7d bytes here). -/
def hybrid_exists_company (companies_str : String) : String :=
  "EXISTS \x7b MATCH (s)<-[:HAS_SECTION]-(d:Document)<-[:HAS_DOC]-(q:Quarter)<-[:HAS_QUARTER]-(y:Year)<-[:HAS_YEAR]-(c:Company) WHERE c.name IN "
    ++ companies_str ++ " \x7d"

/-- EXISTS sub-predicate on years in the hybrid builder. -/
def hybrid_exists_year (years_str : String) : String :=
  "EXISTS \x7b MATCH (s)<-[:HAS_SECTION]-(d:Document)<-[:HAS_DOC]-(q:Quarter)<-[:HAS_QUARTER]-(y:Year) WHERE y.value IN "
    ++ years_str ++ " \x7d"

/-- EXISTS sub-predicate on quarters in the hybrid builder. -/
def hybrid_exists_quarter (quarters_str : String) : String :=
  "EXISTS \x7b MATCH (s)<-[:HAS_SECTION]-(d:Document)<-[:HAS_DOC]-(q:Quarter) WHERE q.label IN "
    ++ quarters_str ++ " \x7d"

/-- Embedding of `CypherQueryBuilder._build_hybrid_query`: a falsy `concept`
(missing or empty) aborts with the empty-string failure value; otherwise the
FAISS index is searched with the hard-coded `k=20`, an empty candidate set
aborts, and the query is assembled from the candidate ids plus EXISTS-style
graph filters.  `encode` stands for `self.model.encode`. -/
def build_hybrid_query (encode : String → List Float) (vdb : VectorDB)
    (plan : SearchPlan) : String :=
  let semantic_query := plan.concept.getD ""
  if semantic_query = "" then ""
  else
    let found := vdb.search (encode semantic_query) 20
    let section_ids := found.2
    if section_ids.isEmpty then ""
    else
      let section_ids_str := "[" ++ String.intercalate ", " (section_ids.map quoteStr) ++ "]"
      let where_parts : List String :=
        ["s.id IN " ++ section_ids_str]
        ++ (if plan.companies.isEmpty then [] else
          [hybrid_exists_company ("[" ++ String.intercalate ", " (plan.companies.map quoteStr) ++ "]")])
        ++ (if plan.years.isEmpty then [] else
          [hybrid_exists_year ("[" ++ String.intercalate ", " (plan.years.map toString) ++ "]")])
        ++ (if plan.quarters.isEmpty then [] else
          [hybrid_exists_quarter ("[" ++ String.intercalate ", " (plan.quarters.map quoteStr) ++ "]")])
      let where_clause := "WHERE " ++ String.intercalate " AND " where_parts
      "MATCH (s:Section)" ++ " " ++ where_clause ++ " " ++ section_return_clause

/-- Embedding of `CypherQueryBuilder.build_query`: strategy dispatch on
`search_type`, defaulting to Direct. -/
def build_query (encode : String → List Float) (vdb : VectorDB)
    (plan : SearchPlan) : String :=
  if plan.search_type = some "Hybrid" then build_hybrid_query encode vdb plan
  else if plan.search_type = some "Comprehensive" then build_comprehensive_query plan
  else build_direct_query plan

/-- Analysis dict consumed by the legacy `generate_cypher_for_hybrid_search`. -/
structure HybridAnalysis where
  companies : List String
  years : List Int
  quarters : List String
  excluded_docs : List String
deriving DecidableEq

/-- Parameter mapping returned by the legacy hybrid generator. -/
structure HybridParams where
  query_embedding : List Float
  companies : List String
  years : List Int
  quarters : List String
  excluded_docs : List String

/-- CALL clause of the legacy hybrid generator, with the hard-coded candidate
count 50 (the function's `top_k` parameter is never used by it). -/
def hybrid_call_clause : String :=
  "\n    CALL db.index.vector.queryNodes(" ++ quoteStr "section_embeddings"
    ++ ", 50, $query_embedding)\n    YIELD node AS s, score\n    "

/-- Match clause of the legacy hybrid generator. -/
def legacy_hybrid_match_clause : String :=
  "MATCH (c:Company)-[:HAS_YEAR]->(y:Year)-[:HAS_QUARTER]->(q:Quarter)-[:HAS_DOC]->(d:Document)-[:HAS_SECTION]->(s)"

/-- Embedding of the legacy `generate_cypher_for_hybrid_search`: fetches 50
candidates from the vector index and limits the filtered result to 10. -/
def generate_cypher_for_hybrid_search (analysis : HybridAnalysis)
    (query_embedding : List Float) : String × HybridParams :=
  let params : HybridParams :=
    { query_embedding := query_embedding
      companies := analysis.companies
      years := analysis.years
      quarters := analysis.quarters
      excluded_docs := analysis.excluded_docs }
  let where_parts : List String :=
    (if params.companies.isEmpty then [] else ["c.name IN $companies"])
    ++ (if params.years.isEmpty then [] else ["y.value IN $years"])
    ++ (if params.quarters.isEmpty then [] else ["q.label IN $quarters"])
    ++ (if params.excluded_docs.isEmpty then [] else ["s.filename NOT IN $excluded_docs"])
  let where_clause :=
    if where_parts.isEmpty then "" else "WHERE " ++ String.intercalate " AND " where_parts
  (hybrid_call_clause ++ " " ++ legacy_hybrid_match_clause ++ " " ++ where_clause ++ " "
    ++ "RETURN s.text AS text, s.filename AS filename, score" ++ " " ++ "LIMIT 10",
   params)

/-- Greedy model of `re.search(r'\x7b.*\x7d', text, re.DOTALL)`: the prefix of
the list ending at the LAST occurrence of `c`, or `none` when `c` is absent. -/
def takeToLast (c : Char) : List Char → Option (List Char)
  | [] => none
  | x :: xs =>
    match takeToLast c xs with
    | some r => some (x :: r)
    | none => if x == c then some [x] else none

/-- Drops elements until the first occurrence of `c`, keeping it; `none` when
`c` is absent. -/
def dropToFirst (c : Char) : List Char → Option (List Char)
  | [] => none
  | x :: xs => if x == c then some (x :: xs) else dropToFirst c xs

/-- Left brace character. -/
def lbrace : Char := Char.ofNat 123

/-- Right brace character. -/
def rbrace : Char := Char.ofNat 125

/-- Best-effort extraction of an embedded JSON object from LLM text: the greedy
match of an opening brace up to the last closing brace after it, as done by
`re.search(r'\x7b.*\x7d', raw_response, re.DOTALL)` in the planner. -/
def regexExtractJson (s : String) : Option String :=
  match dropToFirst lbrace s.data with
  | none => none
  | some [] => none
  | some (x :: xs) =>
    match takeToLast rbrace xs with
    | none => none
    | some tail => some (String.mk (x :: tail))

/-- The shared parse-then-retry pattern of `_llm_extract_company` and
`_llm_extract_context_entities`: try `json.loads` on the raw response and, on
failure, retry exactly once on the regex-extracted embedded JSON object. -/
def loads_with_retry {α : Type} (loads : String → Option α) (r : String) : Option α :=
  match loads r with
  | some d => some d
  | none => (regexExtractJson r).bind loads

/-- Parsed shape of the company-extraction LLM response (`data.get("companies",
[])` in `_llm_extract_company`; a missing key is an empty list). -/
structure CompaniesResponse where
  companies : List String
deriving DecidableEq

/-- Parsed shape of the context-entity LLM response after the list-shaped
sanitization of `_sanitize_llm_list_output` (which is the identity on values
that already are lists). -/
structure EntitiesResponse where
  years : List Int
  quarters : List String
  document_types : List String
deriving DecidableEq

/-- Company-focused data built by `_get_company_focused_data`: an
insertion-ordered mapping year -> quarter -> document types. -/
def CompanyData : Type := List (Int × List (String × List String))

/-- In-place update of an insertion-ordered association list, appending a new
key at the end — the behaviour of Python `dict.setdefault` composed with a
mutation of the stored value. -/
def updateAssoc {κ ν : Type} [BEq κ] (k : κ) (f : ν → ν) (d : ν) :
    List (κ × ν) → List (κ × ν)
  | [] => [(k, f d)]
  | (k2, v) :: rest =>
    if k == k2 then (k2, f v) :: rest else (k2, v) :: updateAssoc k f d rest

/-- Embedding of `ImprovedQueryPlanner._get_company_focused_data`: folds the
(year, quarter, doc_type) rows fetched live from the graph for one company into
the nested `actual_data` mapping. -/
def get_company_focused_data (records : List (Int × String × String)) : CompanyData :=
  records.foldl
    (fun acc r =>
      updateAssoc r.1 (fun qmap => updateAssoc r.2.1 (fun dts => dts ++ [r.2.2]) [] qmap) [] acc)
    []

/-- Model of `re.match(r'^Q[1-4]$', q, re.IGNORECASE)`: a two-character label
`Q`/`q` followed by a digit 1-4. -/
def isQuarterLabel (q : String) : Bool :=
  match q.data with
  | [a, b] => (a == 'Q' || a == 'q') && (b == '1' || b == '2' || b == '3' || b == '4')
  | _ => false

/-- Model of Python `str.upper()` on the (ASCII) strings handled here. -/
def pyUpper (s : String) : String := String.mk (s.data.map Char.toUpper)

/-- Embedding of `ImprovedQueryPlanner._llm_extract_company`.  `loads` models
`json.loads` into the expected shape (`none` = parse failure), `raw` is the LLM
response (`none` = the LLM call itself raised).  A first parse failure is
retried once on the regex-extracted embedded JSON object; any remaining failure
yields the empty company list.  Returned companies are validated against the
live `all_companies` list. -/
def llm_extract_company (loads : String → Option CompaniesResponse)
    (raw : Option String) (all_companies : List String) : List String :=
  match raw with
  | none => []
  | some r =>
    match loads_with_retry loads r with
    | some data => data.companies.filter (fun c => all_companies.contains c)
    | none => []

/-- Embedding of `ImprovedQueryPlanner._llm_extract_context_entities`:
years and document types are validated against the company's live data, while
quarter labels are only matched against `^Q[1-4]$` (case-insensitively) and
uppercased.  Malformed JSON is retried once via regex extraction; any remaining
failure yields empty filters. -/
def llm_extract_context_entities (loads : String → Option EntitiesResponse)
    (raw : Option String) (company_data : CompanyData) : EntitiesResponse :=
  let available_years : List Int := company_data.map Prod.fst
  let available_doc_types : List String :=
    List.insertionSort (fun a b => a ≤ b)
      (company_data.flatMap (fun yd => yd.2.flatMap (fun qd => qd.2))).dedup
  match raw with
  | none => { years := [], quarters := [], document_types := [] }
  | some r =>
    match loads_with_retry loads r with
    | some data =>
      { years := data.years.filter (fun y => available_years.contains y)
        quarters := (data.quarters.filter isQuarterLabel).map pyUpper
        document_types := data.document_types.filter (fun dt => available_doc_types.contains dt) }
    | none => { years := [], quarters := [], document_types := [] }

/-- Raw checklist item as parsed from the extraction-guide LLM response
(`task`/`type` keys may be absent). -/
structure RawChecklistItem where
  task : Option String
  type : Option String
deriving DecidableEq

/-- Parsed shape of the extraction-guide LLM response; a `none` field is a
missing key (the `isinstance(..., list)` check is absorbed into the typed
`extraction_checklist` field). -/
structure GuideResponse where
  analysis_goal : Option String
  sections_to_retrieve : Option (List Int)
  extraction_checklist : Option (List RawChecklistItem)
  plan_type : Option String
deriving DecidableEq

/-- Embedding of `ImprovedQueryPlanner._llm_generate_extraction_guide`: the raw
response is parsed ONCE (a `json.loads` failure propagates to the enclosing
`except` and returns `None` — there is no regex retry here), then validated for
the three required keys and the checklist item shape; on success the internal
`plan_type` marker is added. -/
def llm_generate_extraction_guide (loads : String → Option GuideResponse)
    (raw : Option String) : Option GuideResponse :=
  match raw with
  | none => none
  | some r =>
    match loads r with
    | none => none
    | some plan =>
      if plan.analysis_goal.isSome && plan.sections_to_retrieve.isSome
          && plan.extraction_checklist.isSome then
        match plan.extraction_checklist with
        | some items =>
          if items.all (fun it => it.task.isSome && it.type.isSome) then
            some { plan with plan_type := some "content_extraction" }
          else none
        | none => none
      else none

/-- Parsed shape of the metadata-classification LLM response. -/
structure MetadataResponse where
  query_type : Option String
  cypher_query : Option String
  response_format : Option String
  human_readable_answer : Option String
deriving DecidableEq

/-- Embedding of `ImprovedQueryPlanner._llm_classify_and_build_metadata_query`:
the raw response is parsed once by `json.loads`; any failure (LLM error or
malformed JSON) returns `None` — there is no regex retry here. -/
def llm_classify_and_build_metadata_query (loads : String → Option MetadataResponse)
    (raw : Option String) : Option MetadataResponse :=
  match raw with
  | none => none
  | some r => loads r

/-- Typed checklist item as used by the map step (`item['task']`,
`item['type']`). -/
structure ChecklistItem where
  task : String
  type : String
deriving DecidableEq

/-- Row retrieved from the graph for synthesis: `text`/`filename` may be null
in the database. -/
structure DocRecord where
  text : Option String
  filename : Option String
deriving DecidableEq

/-- Element of the synthesis input produced by the map step. -/
structure SynthInput where
  text : String
  filename : Option String
  is_summary : Bool
deriving DecidableEq

/-- Character ceiling per chunk (`MAX_CHARS_PER_CHUNK` in
`answer_synthesizer.py`). -/
def MAX_CHARS_PER_CHUNK : Nat := 180000

/-- Aggregate context ceiling (`MAX_CONTEXT_CHARACTERS` in `query_agent.py`). -/
def MAX_CONTEXT_CHARACTERS : Nat := 180000

/-- Embedding of `_split_text_into_chunks`; `wrap` models `textwrap.wrap`
(an external library collaborator). -/
def split_text_into_chunks (wrap : String → Nat → List String) (text : String) : List String :=
  if text.length ≤ MAX_CHARS_PER_CHUNK then [text] else wrap text MAX_CHARS_PER_CHUNK

/-- Embedding of `_extract_table_data`: with no table tasks it returns the
empty string; an LLM failure degrades to the `json.dumps` of an
all-"Extraction Error" object keyed by task. -/
def extract_table_data (oracle : String → List String → Except String String)
    (text : String) (tasks : List String) : String :=
  if tasks.isEmpty then ""
  else
    match oracle text tasks with
    | .ok content => content
    | .error _ =>
      "\x7b" ++ String.intercalate ", "
        (tasks.map (fun t => "\"" ++ t ++ "\": \"Extraction Error\"")) ++ "\x7d"

/-- Embedding of `_summarize_narrative`: with no narrative tasks it returns the
empty string; an LLM failure degrades to a fixed error sentence. -/
def summarize_narrative (oracle : String → List String → String → Except String String)
    (text : String) (tasks : List String) (filename : String) : String :=
  if tasks.isEmpty then ""
  else
    match oracle text tasks filename with
    | .ok content => content
    | .error _ => "Could not generate narrative summary due to an error."

/-- Embedding of `map_summarize_sections` (the "Map" step): splits the
checklist into table and narrative tasks, chunks each document, runs both
specialists per chunk, labels and joins their outputs. -/
def map_summarize_sections (tOracle : String → List String → Except String String)
    (nOracle : String → List String → String → Except String String)
    (wrap : String → Nat → List String)
    (documents : List DocRecord) (user_query : String)
    (extraction_checklist : List ChecklistItem) : List SynthInput :=
  let _ := user_query
  let table_tasks :=
    (extraction_checklist.filter (fun it => it.type == "table_extraction")).map (·.task)
  let narrative_tasks :=
    (extraction_checklist.filter (fun it => it.type == "narrative_summary")).map (·.task)
  documents.map (fun doc =>
    let filename := doc.filename
    let text := doc.text.getD ""
    let chunks := split_text_into_chunks wrap text
    let all_chunk_results := chunks.map (fun chunk =>
      let table_results_json := extract_table_data tOracle chunk table_tasks
      let narrative_summary := summarize_narrative nOracle chunk narrative_tasks (optStr filename)
      (if table_results_json ≠ "" then "Extracted Data:\n" ++ table_results_json ++ "\n\n" else "")
        ++ (if narrative_summary ≠ "" then "Narrative Summary:\n" ++ narrative_summary else ""))
    { text := String.intercalate "\n\n---\n\n" all_chunk_results
      filename := filename
      is_summary := true })

/-- Embedding of `Neo4jQueryAgent._guided_map_reduce`: computes the aggregate
character count and compares it against the ceiling, but invokes the same map
step in both branches. -/
def guided_map_reduce (tOracle : String → List String → Except String String)
    (nOracle : String → List String → String → Except String String)
    (wrap : String → Nat → List String)
    (documents : List DocRecord) (user_query : String)
    (extraction_checklist : List ChecklistItem) : List SynthInput :=
  let total_chars := (documents.map (fun doc => (doc.text.getD "").length)).sum
  if total_chars > MAX_CONTEXT_CHARACTERS then
    map_summarize_sections tOracle nOracle wrap documents user_query extraction_checklist
  else
    map_summarize_sections tOracle nOracle wrap documents user_query extraction_checklist

/-- The fixed disclaimer sentence the reduce prompt requires the model to end
with (from `reduce_and_synthesize_answer`). -/
def disclaimer_line : String :=
  "*Disclaimer: RiskGPT may hallucinate; please independently verify all insights before use in production or decision-making contexts.*"

/-- Start/end-marker context assembled by `reduce_and_synthesize_answer` from
the synthesis inputs. -/
def buildContext (results : List SynthInput) : String :=
  String.intercalate "\n\n"
    (results.map (fun res =>
      "--- START: Source from " ++ quoteStr (optStr res.filename) ++ " ---\n"
        ++ res.text ++ "\n--- END: Source from " ++ quoteStr (optStr res.filename) ++ " ---"))

/-- Truthiness filter of `[r.get('filename') for r in results if
r.get('filename')]`: `None` and the empty string are dropped. -/
def truthy_filename (r : SynthInput) : Option String :=
  match r.filename with
  | some f => if f = "" then none else some f
  | none => none

/-- Embedding of `reduce_and_synthesize_answer` (the "Reduce" step).  `llm`
models the synthesis LLM call on (query, analysis goal, context) — prompt
wording is out of the spec's scope.  The answer is the LLM text followed by a
sources section listing the deduplicated, sorted contributing filenames. -/
def reduce_and_synthesize_answer (llm : String → String → String → String)
    (query : String) (results : List SynthInput) (analysis_goal : String) : String :=
  if results.isEmpty then "No information was found that matched the query."
  else
    let context := buildContext results
    let llm_answer := llm query analysis_goal context
    let source_filenames :=
      List.insertionSort (fun a b => a ≤ b) (results.filterMap truthy_filename).dedup
    let sources_section := "\n\nSources:\n" ++
      (if source_filenames.isEmpty then "- None"
       else String.intercalate "\n" (source_filenames.map (fun name => "- " ++ name)))
    llm_answer ++ sources_section

/-- Critic verdict dict (`decision`/`feedback`). -/
structure CriticVerdict where
  decision : String
  feedback : String
deriving DecidableEq

/-- Fallback verdict returned by the critic on any evaluation failure. -/
def critic_fallback : CriticVerdict :=
  { decision := "ACCEPT", feedback := "Critic failed to evaluate, accepting by default." }

/-- Embedding of `evaluate_and_suggest_improvements`: `llm` models the critic
LLM call on (user query, answer, context) and `loads` the JSON parse of its
text; any error on either path yields the fixed ACCEPT fallback. -/
def evaluate_and_suggest_improvements
    (llm : String → String → String → Except String String)
    (loads : String → Option CriticVerdict)
    (user_query answer context : String) : CriticVerdict :=
  match llm user_query answer context with
  | .error _ => critic_fallback
  | .ok evaluation_str =>
    match loads evaluation_str with
    | some evaluation => evaluation
    | none => critic_fallback

/-- Embedding of `Neo4jExecutor.run_cypher_query`: `session` models the Neo4j
driver session run (an exception is `.error`); every exception is swallowed
into the empty result list. -/
def run_cypher_query {π ρ : Type} (session : String → π → Except String (List ρ))
    (query : String) (params : π) : List ρ :=
  match session query params with
  | .ok result_list => result_list
  | .error _ => []

/-- Effects the orchestrator can perform after planning, in order: a graph
query execution, the map step, the reduce step, a critic call (the last never
occurs in `Neo4jQueryAgent.run`). -/
inductive AgentEffect where
  | retrieval
  | mapStep
  | reduceStep
  | criticStep
deriving DecidableEq

/-- Plan dict returned by the planner, as read by `Neo4jQueryAgent.run`
(each `.get` without default is an `Option`; the checklist is kept as a list). -/
structure AgentPlan where
  plan_type : Option String
  cypher_query : Option String
  sections_to_retrieve : Option (List Int)
  analysis_goal : Option String
  extraction_checklist : List ChecklistItem
deriving DecidableEq

/-- External collaborators of the orchestrator. -/
structure AgentEnv where
  create_plan : String → Option AgentPlan
  run_metadata : String → List (List (String × String))
  dumps : List (List (String × String)) → String
  retrieve_sections : List Int → List DocRecord
  table_oracle : String → List String → Except String String
  narrative_oracle : String → List String → String → Except String String
  wrap : String → Nat → List String
  reduce_llm : String → String → String → String

/-- User-facing message when a content-extraction plan specifies no sections. -/
def no_sections_msg : String :=
  "I created a plan, but it did not specify which document sections to analyze. Please try your query again."

/-- Embedding of `Neo4jQueryAgent.run` (stage 2 onwards; stage 1 planning is
the `create_plan` collaborator).  Returns the final answer together with the
ordered list of pipeline effects performed after planning. -/
def agent_run (env : AgentEnv) (query : String) : String × List AgentEffect :=
  match env.create_plan query with
  | none =>
    ("I" ++ sqt ++ "m sorry, I couldn" ++ sqt
      ++ "t create a plan to answer your query. This could be because no relevant documents were found for the entities you mentioned. Please try rephrasing.",
     [])
  | some plan =>
    if plan.plan_type = some "metadata" then
      match plan.cypher_query with
      | none => ("I identified this as a metadata query, but failed to construct the database query.", [])
      | some cypher_query =>
        if cypher_query = "" then
          ("I identified this as a metadata query, but failed to construct the database query.", [])
        else
          (env.dumps (env.run_metadata cypher_query), [AgentEffect.retrieval])
    else if plan.plan_type = some "content_extraction" then
      match plan.sections_to_retrieve with
      | none => (no_sections_msg, [])
      | some section_ids =>
        if section_ids.isEmpty then (no_sections_msg, [])
        else
          let results := env.retrieve_sections section_ids
          if results.isEmpty then
            ("I found the right documents, but I couldn" ++ sqt
              ++ "t extract any text from them. The data might be missing or in an unexpected format.",
             [AgentEffect.retrieval])
          else
            let synthesis_input :=
              guided_map_reduce env.table_oracle env.narrative_oracle env.wrap
                results query plan.extraction_checklist
            let final_answer :=
              reduce_and_synthesize_answer env.reduce_llm query synthesis_input
                (optStr plan.analysis_goal)
            (final_answer, [AgentEffect.retrieval, AgentEffect.mapStep, AgentEffect.reduceStep])
    else
      ("I encountered an unknown plan type and could not proceed.", [])

/-- Live (year, quarter, doc_type) rows for the C1 counterexample: the company
has only Q1 2025 10-Q data. -/
def c1Records : List (Int × String × String) := [(2025, "Q1", "10-Q")]

/-- LLM response for the C1 counterexample: a quarter label absent from the
company's live data. -/
def c1Resp : EntitiesResponse := { years := [], quarters := ["Q4"], document_types := [] }

/-- Parse oracle for the C1 counterexample: the raw response parses cleanly. -/
def c1Loads : String → Option EntitiesResponse :=
  fun s => if s = "resp" then some c1Resp else none

/-- Trivial embedding model for the C2 counterexample. -/
def c2Encode : String → List Float := fun _ => []

/-- Instrumented vector store for the C2 counterexample: it returns the
requested `k` itself as the only candidate id, so the built query records
which `k` the builder used. -/
def c2Vdb : VectorDB := ⟨fun _ k => ([], [toString k])⟩

/-- Hybrid plan WITH a company filter, for the C2 counterexample. -/
def c2Plan : SearchPlan :=
  { search_type := some "Hybrid", concept := some "stress testing"
    companies := ["BAC"], years := [], quarters := [], sections := [] }

/-- Content-extraction plan with an empty section list, for the C3 witness. -/
def c3Plan : AgentPlan :=
  { plan_type := some "content_extraction", cypher_query := none
    sections_to_retrieve := some [], analysis_goal := none, extraction_checklist := [] }

/-- Orchestrator environment for the C3 witness. -/
def c3Env : AgentEnv :=
  { create_plan := fun _ => some c3Plan
    run_metadata := fun _ => []
    dumps := fun _ => ""
    retrieve_sections := fun _ => []
    table_oracle := fun _ _ => Except.ok ""
    narrative_oracle := fun _ _ _ => Except.ok ""
    wrap := fun _ _ => []
    reduce_llm := fun _ _ _ => "" }

/-- Trivial embedding model for the C4 witness. -/
def c4Encode : String → List Float := fun _ => []

/-- Trivial vector store for the C4 witness. -/
def c4Vdb : VectorDB := ⟨fun _ _ => ([], [])⟩

/-- Hybrid plan with an empty concept, for the C4 witness. -/
def c4Plan : SearchPlan :=
  { search_type := some "Hybrid", concept := some ""
    companies := ["BAC"], years := [], quarters := [], sections := [] }

/-- A well-formed extraction guide, for the C6 counterexample. -/
def c6GoodPlan : GuideResponse :=
  { analysis_goal := some "Summarize net income."
    sections_to_retrieve := some [10]
    extraction_checklist := some [{ task := some "Extract net income", type := some "table_extraction" }]
    plan_type := none }

/-- An embedded JSON object, for the C6 counterexample. -/
def c6Js : String := "\x7b \"analysis_goal\": \"...\" \x7d"

/-- Raw LLM response for the C6 counterexample: valid JSON embedded in chatty
text, so the raw response itself does not parse. -/
def c6Raw : String := "Sure! Here is the JSON: " ++ c6Js

/-- Parse oracle for the C6 counterexample: only the embedded object parses. -/
def c6Loads : String → Option GuideResponse :=
  fun s => if s = c6Js then some c6GoodPlan else none

/-- Company-extraction parse oracle for the C6 witness (retry succeeds). -/
def c6wCompLoads : String → Option CompaniesResponse :=
  fun s => if s = "\x7bx\x7d" then some { companies := ["BAC"] } else none

/-- Raw company-extraction response for the C6 witness. -/
def c6wCompRaw : String := "junk \x7bx\x7d"

/-- Context-entity parse oracle for the C6 witness (retry succeeds). -/
def c6wEntLoads : String → Option EntitiesResponse :=
  fun s => if s = "\x7by\x7d" then some { years := [], quarters := [], document_types := [] } else none

/-- Raw context-entity response for the C6 witness. -/
def c6wEntRaw : String := "junk \x7by\x7d"

/-- Always-failing guide parse oracle for the C6 witness. -/
def c6wGuideLoads : String → Option GuideResponse := fun _ => none

/-- Always-failing metadata parse oracle for the C6 witness. -/
def c6wMetaLoads : String → Option MetadataResponse := fun _ => none

/-- Direct plan with no filters at all, for the C7 witness. -/
def c7Plan : SearchPlan :=
  { search_type := some "Direct", concept := none
    companies := [], years := [], quarters := [], sections := [] }

/-- Synthesis LLM model for the C8 witness: its answer ends with (is) the
disclaimer sentence. -/
def c8Llm : String → String → String → String := fun _ _ _ => disclaimer_line

/-- Synthesis inputs for the C8 witness, with unsorted duplicate filenames. -/
def c8Results : List SynthInput :=
  [ { text := "body b", filename := some "b.txt", is_summary := true }
  , { text := "body a", filename := some "a.txt", is_summary := true }
  , { text := "more b", filename := some "b.txt", is_summary := true } ]

/-- Failing critic LLM call, for the C9 witness. -/
def c9Llm : String → String → String → Except String String :=
  fun _ _ _ => Except.error "rate limit"

/-- Unparseable-response oracle, for the C9 witness. -/
def c9Loads : String → Option CriticVerdict := fun _ => none

/-- A session that always raises, for the C10 witness. -/
def c10Session : String → List (String × String) → Except String (List (List (String × String))) :=
  fun _ _ => Except.error "connection refused"

/-- A filtered list satisfies its own filter predicate everywhere. -/
theorem all_filter_self {α : Type} (p : α → Bool) (l : List α) :
    (l.filter p).all p = true := by
  rw [List.all_eq_true]
  intro x hx
  exact (List.mem_filter.mp hx).2

/-- Membership in the sorted deduplication of a list implies membership in the
list. -/
theorem mem_of_mem_sortDedup {x : String} {l : List String}
    (h : x ∈ List.insertionSort (fun a b => a ≤ b) l.dedup) : x ∈ l :=
  List.mem_dedup.mp ((List.perm_insertionSort (fun a b => a ≤ b) l.dedup).mem_iff.mp h)

/-- Uppercasing a quarter-label character pair lands in the fixed set Q1..Q4. -/
theorem quarter_pair_upper (a b : Char)
    (ha : a = 'Q' ∨ a = 'q')
    (hb : ((b = '1' ∨ b = '2') ∨ b = '3') ∨ b = '4') :
    (["Q1", "Q2", "Q3", "Q4"] : List String).contains
      (String.mk [a.toUpper, b.toUpper]) = true := by
  rcases ha with rfl | rfl <;> rcases hb with (((rfl | rfl) | rfl) | rfl) <;> decide

/-- Uppercasing any string matched by `^Q[1-4]$` (case-insensitively) lands in
the fixed set Q1..Q4. -/
theorem quarter_upper_mem (q : String) (h : isQuarterLabel q = true) :
    (["Q1", "Q2", "Q3", "Q4"] : List String).contains (pyUpper q) = true := by
  unfold isQuarterLabel at h
  unfold pyUpper
  rcases hd : q.data with _ | ⟨a, _ | ⟨b, _ | ⟨c, rest⟩⟩⟩ <;> rw [hd] at h
  · exact absurd h Bool.false_ne_true
  · exact absurd h Bool.false_ne_true
  · have h2 : ((a == 'Q' || a == 'q')
        && (b == '1' || b == '2' || b == '3' || b == '4')) = true := h
    simp only [Bool.and_eq_true, Bool.or_eq_true, beq_iff_eq] at h2
    exact quarter_pair_upper a b h2.1 h2.2
  · exact absurd h Bool.false_ne_true

/-- Claim C5: both branches of the aggregate-size check in
`_guided_map_reduce` invoke the identical per-document map step, so the
synthesis input is the same function of the inputs whether the total character
count is above or below the 180,000-character ceiling. -/
theorem c5_map_branches_equal :
    ∀ (tOracle : String → List String → Except String String)
      (nOracle : String → List String → String → Except String String)
      (wrap : String → Nat → List String)
      (documents : List DocRecord) (user_query : String)
      (extraction_checklist : List ChecklistItem),
      guided_map_reduce tOracle nOracle wrap documents user_query extraction_checklist
        = map_summarize_sections tOracle nOracle wrap documents user_query extraction_checklist := by
  intro t n w d q cl
  simp only [guided_map_reduce, ite_self]

/-- Claim C7: a Direct-strategy plan with no company, year, quarter or section
filter builds a query whose WHERE clause is omitted entirely — the built text
contains no occurrence of "WHERE" at all. -/
theorem c7_no_where_clause (plan : SearchPlan)
    (hst : plan.search_type = some "Direct")
    (hc : plan.companies = []) (hy : plan.years = [])
    (hq : plan.quarters = []) (hs : plan.sections = []) :
    (∀ (encode : String → List Float) (vdb : VectorDB),
      build_query encode vdb plan = build_direct_query plan)
    ∧ build_direct_query plan
        = direct_match_clause ++ " " ++ "" ++ " " ++ section_return_clause
    ∧ strSub "WHERE" (build_direct_query plan) = false := by
  have hbd : build_direct_query plan
      = direct_match_clause ++ " " ++ "" ++ " " ++ section_return_clause := by
    simp only [build_direct_query, hc, hy, hq, hs]
    rfl
  refine ⟨?_, hbd, ?_⟩
  · intro encode vdb
    simp only [build_query, hst]
    rw [if_neg (by decide), if_neg (by decide)]
  · rw [hbd]
    decide

/-- Witness for C7 at a concrete empty-filter Direct plan. -/
theorem c7_witness :
    (∀ (encode : String → List Float) (vdb : VectorDB),
      build_query encode vdb c7Plan = build_direct_query c7Plan)
    ∧ build_direct_query c7Plan
        = direct_match_clause ++ " " ++ "" ++ " " ++ section_return_clause
    ∧ strSub "WHERE" (build_direct_query c7Plan) = false :=
  c7_no_where_clause c7Plan rfl rfl rfl rfl rfl

/-- Claim C3: a content-extraction plan whose section-id list is missing or
empty makes the pipeline halt with the fixed user-facing message before any
retrieval, synthesis or critic effect is performed. -/
theorem c3_empty_sections_halt (env : AgentEnv) (query : String) (plan : AgentPlan)
    (hp : env.create_plan query = some plan)
    (ht : plan.plan_type = some "content_extraction")
    (hs : plan.sections_to_retrieve = none ∨ plan.sections_to_retrieve = some []) :
    agent_run env query = (no_sections_msg, []) := by
  unfold agent_run
  rw [hp]
  simp only [ht]
  rw [if_neg (by decide)]
  rcases hs with h | h <;> rw [h] <;> rfl

/-- Witness for C3 at a concrete environment whose planner returns a
content-extraction plan with an empty section list. -/
theorem c3_witness : agent_run c3Env "What was the net income?" = (no_sections_msg, []) :=
  c3_empty_sections_halt c3Env "What was the net income?" c3Plan rfl rfl (Or.inr rfl)

/-- Claim C4: a Hybrid plan with a missing or empty concept deterministically
yields the builder's empty-string failure value — independent of the embedding
model and vector store, with no fallback to another strategy (Hybrid plans are
routed only to the hybrid builder), and distinguishable from every
successfully built Direct query (those are never empty). -/
theorem c4_hybrid_empty_concept_fails (encode : String → List Float) (vdb : VectorDB)
    (plan : SearchPlan)
    (hst : plan.search_type = some "Hybrid")
    (hcpt : plan.concept = none ∨ plan.concept = some "") :
    build_query encode vdb plan = ""
    ∧ (∀ (e : String → List Float) (v : VectorDB) (p : SearchPlan),
        p.search_type = some "Hybrid" → build_query e v p = build_hybrid_query e v p)
    ∧ (∀ p : SearchPlan, build_direct_query p ≠ "") := by
  refine ⟨?_, ?_, ?_⟩
  · rcases hcpt with h | h <;> unfold build_query build_hybrid_query <;> rw [hst, h] <;> rfl
  · intro e v p hp
    unfold build_query
    rw [hp]
    rfl
  · intro p hcontra
    have hlen := congrArg String.length hcontra
    simp only [build_direct_query, String.length_append] at hlen
    have h2 : (" " : String).length = 1 := rfl
    have h3 : ("" : String).length = 0 := rfl
    rw [h2, h3] at hlen
    omega

/-- Witness for C4 at a concrete Hybrid plan with an empty concept. -/
theorem c4_witness :
    build_query c4Encode c4Vdb c4Plan = ""
    ∧ (∀ (e : String → List Float) (v : VectorDB) (p : SearchPlan),
        p.search_type = some "Hybrid" → build_query e v p = build_hybrid_query e v p)
    ∧ (∀ p : SearchPlan, build_direct_query p ≠ "") :=
  c4_hybrid_empty_concept_fails c4Encode c4Vdb c4Plan rfl (Or.inr rfl)

/-- Claim C2 counterexample: on a Hybrid plan carrying a company filter, the
builder still issues the vector search with k=20 (the instrumented store
records the requested k as the only candidate id, and the built query quotes
id '20', not '50'), and the built query contains no LIMIT truncation at all. -/
theorem c2_counterexample :
    strSub (quoteStr "20") (build_query c2Encode c2Vdb c2Plan) = true
    ∧ strSub "50" (build_query c2Encode c2Vdb c2Plan) = false
    ∧ strSub "LIMIT" (build_query c2Encode c2Vdb c2Plan) = false
    ∧ strSub "c.name IN" (build_query c2Encode c2Vdb c2Plan) = true := by
  decide

/-- Claim C2 as amended: the class hybrid builder always searches with k=20
(its output depends on the vector store only through the k=20 slice, filters
or not) and never truncates — every successfully built hybrid query ends at
the RETURN clause; the legacy hybrid generator unconditionally fetches 50
candidates (the literal 50 in its CALL clause) and unconditionally appends
LIMIT 10. -/
theorem c2_amended :
    (∀ (encode : String → List Float) (vdb : VectorDB) (plan : SearchPlan),
      build_hybrid_query encode vdb plan
        = build_hybrid_query encode ⟨fun emb _ => vdb.search emb 20⟩ plan)
    ∧ (∀ (encode : String → List Float) (vdb : VectorDB) (plan : SearchPlan),
        build_hybrid_query encode vdb plan = ""
        ∨ ∃ pre, build_hybrid_query encode vdb plan = pre ++ section_return_clause)
    ∧ (∀ (analysis : HybridAnalysis) (query_embedding : List Float),
        ∃ wc, (generate_cypher_for_hybrid_search analysis query_embedding).1
          = hybrid_call_clause ++ " " ++ legacy_hybrid_match_clause ++ " " ++ wc ++ " "
            ++ "RETURN s.text AS text, s.filename AS filename, score" ++ " " ++ "LIMIT 10")
    ∧ strSub ", 50," hybrid_call_clause = true := by
  refine ⟨?_, ?_, ?_, by decide⟩
  · intro e v p
    rfl
  · intro e v p
    simp only [build_hybrid_query]
    split
    · exact Or.inl rfl
    · split
      · exact Or.inl rfl
      · exact Or.inr ⟨_, rfl⟩
  · intro analysis query_embedding
    exact ⟨_, rfl⟩

/-- Claim C1 counterexample: the company's live data contains only quarter Q1,
yet an LLM-returned "Q4" passes the planner's quarter validation (which only
checks the syntactic shape Q1..Q4) and is kept in the plan filters. -/
theorem c1_counterexample :
    (llm_extract_context_entities c1Loads (some "resp")
        (get_company_focused_data c1Records)).quarters = ["Q4"]
    ∧ (c1Records.map (fun r => r.2.1)).contains "Q4" = false
    ∧ c1Records.map (fun r => r.2.1) = ["Q1"] := by
  decide

/-- Claim C1 as amended: extracted company identifiers, years and document
types are always validated against the values fetched live from the graph
(companies against the live company list, years against the company's live
years, document types against the doc types occurring in the company's live
data), but quarter labels are validated only against the fixed syntactic set
Q1..Q4 (case-insensitively, then uppercased), not against the live data. -/
theorem c1_grounded_subsets :
    (∀ (loads : String → Option CompaniesResponse) (raw : Option String)
       (all_companies : List String),
      (llm_extract_company loads raw all_companies).all
        (fun c => all_companies.contains c) = true)
    ∧ (∀ (loads : String → Option EntitiesResponse) (raw : Option String)
         (company_data : CompanyData),
        ((llm_extract_context_entities loads raw company_data).years).all
          (fun y => (company_data.map Prod.fst).contains y) = true
        ∧ ((llm_extract_context_entities loads raw company_data).document_types).all
            (fun dt => (company_data.flatMap (fun yd => yd.2.flatMap (fun qd => qd.2))).contains dt) = true
        ∧ ((llm_extract_context_entities loads raw company_data).quarters).all
            (fun qu => (["Q1", "Q2", "Q3", "Q4"] : List String).contains qu) = true) := by
  constructor
  · intro loads raw all_companies
    cases raw with
    | none => rfl
    | some r =>
      simp only [llm_extract_company]
      cases hp : loads_with_retry loads r with
      | none => rfl
      | some data => exact all_filter_self _ _
  · intro loads raw company_data
    cases raw with
    | none => exact ⟨rfl, rfl, rfl⟩
    | some r =>
      simp only [llm_extract_context_entities]
      cases hp : loads_with_retry loads r with
      | none => exact ⟨rfl, rfl, rfl⟩
      | some data =>
        dsimp only
        refine ⟨all_filter_self _ _, ?_, ?_⟩
        · rw [List.all_eq_true]
          intro x hx
          have h1 := (List.mem_filter.mp hx).2
          have h2 := mem_of_mem_sortDedup (List.elem_iff.mp h1)
          exact List.elem_iff.mpr h2
        · rw [List.all_eq_true]
          intro x hx
          obtain ⟨qu, hq, rfl⟩ := List.mem_map.mp hx
          exact quarter_upper_mem qu (List.mem_filter.mp hq).2

/-- Claim C6 counterexample: the extraction-guide LLM call receives chatty
text with a valid embedded JSON object; the raw text does not parse, the
regex extraction would recover the object and it would parse to a well-formed
plan, yet the stage fails with no retry. -/
theorem c6_counterexample :
    c6Loads c6Raw = none
    ∧ regexExtractJson c6Raw = some c6Js
    ∧ (c6Loads c6Js).isSome = true
    ∧ llm_generate_extraction_guide c6Loads (some c6Raw) = none := by
  decide

/-- Claim C6 as amended: only the company-extraction and context-entity LLM
calls in the planner retry once with a regex extraction of an embedded JSON
object (succeeding whenever the extracted object parses, and failing the stage
only when extraction or the reparse also fails); the extraction-guide and
metadata-classification calls fail their stage immediately on malformed
JSON. -/
theorem c6_retry_scope :
    (∀ (loads : String → Option CompaniesResponse) (r : String)
       (all_companies : List String) (js : String) (d : CompaniesResponse),
      loads r = none → regexExtractJson r = some js → loads js = some d →
      llm_extract_company loads (some r) all_companies
        = d.companies.filter (fun c => all_companies.contains c))
    ∧ (∀ (loads : String → Option CompaniesResponse) (r : String)
         (all_companies : List String),
        loads r = none → regexExtractJson r = none →
        llm_extract_company loads (some r) all_companies = [])
    ∧ (∀ (loads : String → Option EntitiesResponse) (r : String)
         (company_data : CompanyData) (js : String) (d : EntitiesResponse),
        loads r = none → regexExtractJson r = some js → loads js = some d →
        llm_extract_context_entities loads (some r) company_data
          = { years := d.years.filter (fun y => (company_data.map Prod.fst).contains y)
              quarters := (d.quarters.filter isQuarterLabel).map pyUpper
              document_types := d.document_types.filter (fun dt =>
                (List.insertionSort (fun a b => a ≤ b)
                  (company_data.flatMap (fun yd => yd.2.flatMap (fun qd => qd.2))).dedup).contains dt) })
    ∧ (∀ (loads : String → Option GuideResponse) (r : String),
        loads r = none → llm_generate_extraction_guide loads (some r) = none)
    ∧ (∀ (loads : String → Option MetadataResponse) (r : String),
        loads r = none → llm_classify_and_build_metadata_query loads (some r) = none) := by
  have hretry : ∀ (α : Type) (loads : String → Option α) (r js : String) (d : α),
      loads r = none → regexExtractJson r = some js → loads js = some d →
      loads_with_retry loads r = some d := by
    intro α loads r js d h1 h2 h3
    unfold loads_with_retry
    rw [h1, h2]
    simpa using h3
  have hretry0 : ∀ (α : Type) (loads : String → Option α) (r : String),
      loads r = none → regexExtractJson r = none →
      loads_with_retry loads r = none := by
    intro α loads r h1 h2
    unfold loads_with_retry
    rw [h1, h2]
    rfl
  refine ⟨?_, ?_, ?_, ?_, ?_⟩
  · intro loads r all_companies js d h1 h2 h3
    simp only [llm_extract_company]
    rw [hretry _ loads r js d h1 h2 h3]
  · intro loads r all_companies h1 h2
    simp only [llm_extract_company]
    rw [hretry0 _ loads r h1 h2]
  · intro loads r company_data js d h1 h2 h3
    simp only [llm_extract_context_entities]
    rw [hretry _ loads r js d h1 h2 h3]
  · intro loads r h1
    simp only [llm_generate_extraction_guide, h1]
  · intro loads r h1
    simp only [llm_classify_and_build_metadata_query, h1]

/-- Witness for C6 at concrete parse oracles and responses: the retrying calls
recover from chatty text around a valid JSON object, the non-retrying calls
fail their stage. -/
theorem c6_witness :
    llm_extract_company c6wCompLoads (some c6wCompRaw) ["BAC", "JPM"] = ["BAC"]
    ∧ llm_extract_company (fun _ => (none : Option CompaniesResponse))
        (some "no json here") ["BAC"] = []
    ∧ llm_extract_context_entities c6wEntLoads (some c6wEntRaw) ([] : CompanyData)
        = { years := [], quarters := [], document_types := [] }
    ∧ llm_generate_extraction_guide c6wGuideLoads (some "not json") = none
    ∧ llm_classify_and_build_metadata_query c6wMetaLoads (some "not json") = none :=
  ⟨(c6_retry_scope.1 c6wCompLoads c6wCompRaw ["BAC", "JPM"] "\x7bx\x7d"
      { companies := ["BAC"] } (by decide) (by decide) (by decide)).trans (by decide),
   c6_retry_scope.2.1 (fun _ => none) "no json here" ["BAC"] rfl (by decide),
   (c6_retry_scope.2.2.1 c6wEntLoads c6wEntRaw [] "\x7by\x7d"
      { years := [], quarters := [], document_types := [] }
      (by decide) (by decide) (by decide)).trans (by decide),
   c6_retry_scope.2.2.2.1 c6wGuideLoads "not json" rfl,
   c6_retry_scope.2.2.2.2 c6wMetaLoads "not json" rfl⟩

/-- Claim C8: for a non-empty synthesis input whose filenames are present and
whose synthesis LLM call ends its answer with the fixed disclaimer (as the
reduce prompt instructs), the final answer is that answer followed by a
sources section whose filename list is duplicate-free, sorted ascending, and
contains exactly the distinct filenames appearing in the inputs. -/
theorem c8_sources_suffix (llm : String → String → String → String)
    (query analysis_goal pre : String) (results : List SynthInput)
    (hne : results ≠ [])
    (hfiles : results.all (fun r => (truthy_filename r).isSome) = true)
    (hdisc : llm query analysis_goal (buildContext results) = pre ++ disclaimer_line) :
    ∃ names : List String,
      reduce_and_synthesize_answer llm query results analysis_goal
        = pre ++ (disclaimer_line ++ ("\n\nSources:\n"
            ++ String.intercalate "\n" (names.map (fun n => "- " ++ n))))
      ∧ names.Nodup
      ∧ List.Sorted (fun a b => a ≤ b) names
      ∧ (∀ x, x ∈ names ↔ some x ∈ results.map SynthInput.filename) := by
  refine ⟨List.insertionSort (fun a b => a ≤ b) (results.filterMap truthy_filename).dedup,
    ?_, ?_, ?_, ?_⟩
  · have h0 : ¬(results.isEmpty = true) := by
      rw [List.isEmpty_eq_false.mpr hne]
      exact Bool.false_ne_true
    obtain ⟨r0, hr0⟩ := List.exists_mem_of_ne_nil results hne
    obtain ⟨f0, hf0⟩ := Option.isSome_iff_exists.mp (List.all_eq_true.mp hfiles r0 hr0)
    have hmem : f0 ∈ List.insertionSort (fun a b => a ≤ b)
        (results.filterMap truthy_filename).dedup :=
      (List.perm_insertionSort _ _).mem_iff.mpr
        (List.mem_dedup.mpr (List.mem_filterMap.mpr ⟨r0, hr0, hf0⟩))
    have h1 : ¬((List.insertionSort (fun a b => a ≤ b)
        (results.filterMap truthy_filename).dedup).isEmpty = true) := by
      rw [List.isEmpty_eq_false.mpr (List.ne_nil_of_mem hmem)]
      exact Bool.false_ne_true
    simp only [reduce_and_synthesize_answer]
    rw [if_neg h0, hdisc, if_neg h1, String.append_assoc]
  · exact (List.perm_insertionSort _ _).nodup_iff.mpr (List.nodup_dedup _)
  · exact List.sorted_insertionSort _ _
  · intro x
    constructor
    · intro hx
      obtain ⟨r, hr, htr⟩ :=
        List.mem_filterMap.mp (List.mem_dedup.mp ((List.perm_insertionSort _ _).mem_iff.mp hx))
      have hrf : r.filename = some x := by
        cases hrfn : r.filename with
        | none =>
          simp only [truthy_filename, hrfn] at htr
          exact htr
        | some f =>
          simp only [truthy_filename, hrfn] at htr
          by_cases hf : f = ""
          · rw [if_pos hf] at htr
            exact absurd htr (by simp)
          · rw [if_neg hf] at htr
            exact htr
      exact List.mem_map.mpr ⟨r, hr, hrf⟩
    · intro hx
      obtain ⟨r, hr, hrf⟩ := List.mem_map.mp hx
      have htr := List.all_eq_true.mp hfiles r hr
      simp only [truthy_filename, hrf] at htr
      have htx : truthy_filename r = some x := by
        simp only [truthy_filename, hrf]
        by_cases hx0 : x = ""
        · rw [if_pos hx0] at htr
          exact absurd htr (by simp)
        · rw [if_neg hx0]
      exact (List.perm_insertionSort _ _).mem_iff.mpr
        (List.mem_dedup.mpr (List.mem_filterMap.mpr ⟨r, hr, htx⟩))

/-- Witness for C8 at a concrete LLM and three inputs with unsorted duplicate
filenames. -/
theorem c8_witness :
    ∃ names : List String,
      reduce_and_synthesize_answer c8Llm "BAC Q1 2025 net income" c8Results "goal"
        = "" ++ (disclaimer_line ++ ("\n\nSources:\n"
            ++ String.intercalate "\n" (names.map (fun n => "- " ++ n))))
      ∧ names.Nodup
      ∧ List.Sorted (fun a b => a ≤ b) names
      ∧ (∀ x, x ∈ names ↔ some x ∈ c8Results.map SynthInput.filename) :=
  c8_sources_suffix c8Llm "BAC Q1 2025 net income" "goal" "" c8Results
    (by decide) (by decide) rfl

/-- Claim C9: whenever the critic's LLM call errors or its response does not
parse as JSON, the critic returns the fixed ACCEPT verdict with a non-empty
explanatory feedback note — never an exception, never REFINE. -/
theorem c9_critic_fallback
    (llm : String → String → String → Except String String)
    (loads : String → Option CriticVerdict) (user_query answer context : String)
    (hfail : (∃ e, llm user_query answer context = Except.error e)
      ∨ (∃ s, llm user_query answer context = Except.ok s ∧ loads s = none)) :
    evaluate_and_suggest_improvements llm loads user_query answer context = critic_fallback
    ∧ critic_fallback.decision = "ACCEPT"
    ∧ critic_fallback.decision ≠ "REFINE"
    ∧ critic_fallback.feedback ≠ "" := by
  refine ⟨?_, rfl, by decide, by decide⟩
  rcases hfail with ⟨e, he⟩ | ⟨s2, hs2, hl⟩
  · simp only [evaluate_and_suggest_improvements, he]
  · simp only [evaluate_and_suggest_improvements, hs2, hl]

/-- Witness for C9 at a concrete failing LLM call. -/
theorem c9_witness :
    evaluate_and_suggest_improvements c9Llm c9Loads "q" "a" "ctx" = critic_fallback
    ∧ critic_fallback.decision = "ACCEPT"
    ∧ critic_fallback.decision ≠ "REFINE"
    ∧ critic_fallback.feedback ≠ "" :=
  c9_critic_fallback c9Llm c9Loads "q" "a" "ctx" (Or.inl ⟨"rate limit", rfl⟩)

/-- Claim C10: the executor's query method always returns a list — it returns
the session's rows on success and the empty list on any exception, so an
execution error is indistinguishable at the call site from a query that
matched nothing. -/
theorem c10_executor_total {π ρ : Type} (session : String → π → Except String (List ρ))
    (query : String) (params : π) :
    (∀ e, session query params = Except.error e → run_cypher_query session query params = [])
    ∧ (∀ rs, session query params = Except.ok rs → run_cypher_query session query params = rs)
    ∧ run_cypher_query (fun _ _ => (Except.error "boom" : Except String (List ρ))) query params
        = run_cypher_query (fun _ _ => (Except.ok ([] : List ρ) : Except String (List ρ))) query params := by
  refine ⟨?_, ?_, rfl⟩
  · intro e he
    simp only [run_cypher_query, he]
  · intro rs hrs
    simp only [run_cypher_query, hrs]

/-- Witness for C10 at a session that always raises. -/
theorem c10_witness :
    run_cypher_query c10Session "MATCH (n) RETURN n" [] = [] :=
  (c10_executor_total c10Session "MATCH (n) RETURN n" []).1 "connection refused" rfl
